import Mathlib

/-!
Verification development for the docser crawler (src/browser.rs, src/server.rs,
src/extractor/mod.rs).  The Rust code is shallowly embedded: HTML documents are
modelled as parsed node forests (`List HNode`); the scraper library's
`Html::parse_document` / `Html::parse_fragment` round-trip of serialized
fragments is modelled by working directly on the nodes (re-parsing the
concatenation of serialized elements yields those elements as the fragment's
direct children); external collaborators (the readability crate, the
html2md converter, the live browser) are abstract function parameters.
All static CSS selectors of src/extractor/mod.rs parse successfully with
`Selector::parse`, so selectors are embedded as already-parsed values `Sel`.
-/

set_option maxRecDepth 8192

namespace Docser

/-- HTML node: an element with tag, attribute list and children, or a text
node.  Mirrors the node shapes handled by src/extractor/mod.rs (comments and
other node kinds play no role in selector matching or filtering there). -/
inductive HNode where
  | elem (tag : String) (attrs : List (String × String)) (children : List HNode)
  | text (s : String)

/-- One condition of a CSS compound selector, as used in the static tables of
src/extractor/mod.rs: a class test `.c`, an id test `#i`, an exact attribute
test `[k='v']`, or a substring attribute test `[k*='v']`. -/
inductive Cond where
  | cls (c : String)
  | idIs (i : String)
  | attrEq (k v : String)
  | attrSub (k v : String)
deriving DecidableEq

/-- A compound selector: optional tag name plus a list of conditions. -/
structure Compound where
  tag : Option String
  conds : List Cond
deriving DecidableEq

/-- A descendant chain `A B` (outermost compound first, target last). -/
abbrev Chain := List Compound

/-- A selector: comma-separated union of descendant chains. -/
abbrev Sel := List Chain

def selTag (t : String) : Sel := [[⟨some t, []⟩]]

def selCls (c : String) : Sel := [[⟨none, [Cond.cls c]⟩]]

def selTagCls (t c : String) : Sel := [[⟨some t, [Cond.cls c]⟩]]

def selId (i : String) : Sel := [[⟨none, [Cond.idIs i]⟩]]

def selAttrEq (k v : String) : Sel := [[⟨none, [Cond.attrEq k v]⟩]]

def selTagAttrEq (t k v : String) : Sel := [[⟨some t, [Cond.attrEq k v]⟩]]

def selAttrSub (k v : String) : Sel := [[⟨none, [Cond.attrSub k v]⟩]]

def selTagAttrSub (t k v : String) : Sel := [[⟨some t, [Cond.attrSub k v]⟩]]

/-- Character-list test: `p` is an initial segment of `s`. -/
def segStarts : List Char → List Char → Bool
  | [], _ => true
  | _ :: _, [] => false
  | p :: ps, c :: cs => p == c && segStarts ps cs

/-- Character-list test: `p` occurs as a contiguous segment of `s`. -/
def segIn (p : List Char) : List Char → Bool
  | [] => p.isEmpty
  | c :: cs => segStarts p (c :: cs) || segIn p cs

/-- Substring test used for the CSS `[k*='v']` operator. -/
def strContains (s pat : String) : Bool := segIn pat.data s.data

/-- String test used for `str::starts_with` in src/browser.rs. -/
def strStarts (s p : String) : Bool := segStarts p.data s.data

/-- First value of attribute `k` in an attribute list. -/
def getAttr (attrs : List (String × String)) (k : String) : Option String :=
  (attrs.find? (fun p => p.fst == k)).map (fun p => p.snd)

/-- Splitting a character list on spaces (for the `class` attribute). -/
def splitSpaces (acc : List Char) : List Char → List String
  | [] => [String.mk acc.reverse]
  | c :: cs => if c == ' ' then String.mk acc.reverse :: splitSpaces [] cs else splitSpaces (c :: acc) cs

/-- Class list of an element: the `class` attribute split on spaces. -/
def classesOf (attrs : List (String × String)) : List String :=
  match getAttr attrs "class" with
  | some s => splitSpaces [] s.data
  | none => []

def condMatches (attrs : List (String × String)) : Cond → Bool
  | Cond.cls c => (classesOf attrs).contains c
  | Cond.idIs i => getAttr attrs "id" == some i
  | Cond.attrEq k v => getAttr attrs k == some v
  | Cond.attrSub k v =>
    match getAttr attrs k with
    | some s => strContains s v
    | none => false

def compoundMatches (tag : String) (attrs : List (String × String)) (c : Compound) : Bool :=
  (match c.tag with
   | some t => t == tag
   | none => true)
  && c.conds.all (condMatches attrs)

/-- Ancestor data: tag and attributes, nearest ancestor first. -/
abbrev Anc := List (String × List (String × String))

/-- Chain compounds (innermost first) matched against ancestors, allowing
gaps, as the CSS descendant combinator does. -/
def ancChainMatches : List Compound → Anc → Bool
  | [], _ => true
  | _ :: _, [] => false
  | c :: cs, (t, a) :: rest =>
    (compoundMatches t a c && ancChainMatches cs rest) || ancChainMatches (c :: cs) rest

def chainMatches (ch : Chain) (anc : Anc) (tag : String) (attrs : List (String × String)) : Bool :=
  match ch.reverse with
  | [] => false
  | tgt :: outer => compoundMatches tag attrs tgt && ancChainMatches outer anc

def selMatches (s : Sel) (anc : Anc) (tag : String) (attrs : List (String × String)) : Bool :=
  s.any (fun ch => chainMatches ch anc tag attrs)

mutual

/-- Elements of a subtree matching `s`, in depth-first pre-order, with
ancestry `anc` — the order `scraper`'s `document.select` traverses. -/
def selectNode (s : Sel) (anc : Anc) : HNode → List HNode
  | HNode.text _ => []
  | HNode.elem t a cs =>
    (if selMatches s anc t a then [HNode.elem t a cs] else [])
      ++ selectNodes s ((t, a) :: anc) cs
termination_by structural n => n

def selectNodes (s : Sel) (anc : Anc) : List HNode → List HNode
  | [] => []
  | n :: ns => selectNode s anc n ++ selectNodes s anc ns
termination_by structural ns => ns

end

def attrsString : List (String × String) → String
  | [] => ""
  | (k, v) :: rest => " " ++ k ++ "=\"" ++ v ++ "\"" ++ attrsString rest

mutual

/-- Serialization of a node, as `scraper`'s `ElementRef::html` produces it. -/
def hserialize : HNode → String
  | HNode.text s => s
  | HNode.elem t a cs => "<" ++ t ++ attrsString a ++ ">" ++ hserializeList cs ++ "</" ++ t ++ ">"
termination_by structural n => n

def hserializeList : List HNode → String
  | [] => ""
  | n :: ns => hserialize n ++ hserializeList ns
termination_by structural ns => ns

end

/-- Framework descriptor, src/extractor/mod.rs lines 6-11 (the `name` field is
only documentation in the source and is kept as a comment in the table). -/
structure Framework where
  main_container : Sel
  text_content_selector : Sel
  exclusions : List Sel

/-- The static FRAMEWORKS table, src/extractor/mod.rs lines 14-87, in source
order. -/
def FRAMEWORKS : List Framework := [
  -- Docusaurus v2/v3
  ⟨selTag "main", selTagCls "article" "markdown",
   [selCls "pagination-nav", selCls "theme-doc-toc-desktop",
    selCls "theme-doc-sidebar-container", selCls "hash-link"]⟩,
  -- Sphinx (RTD)
  ⟨selCls "wy-nav-content", selAttrEq "itemprop" "articleBody",
   [selCls "wy-nav-side", selCls "rst-footer-buttons", selTagCls "a" "headerlink"]⟩,
  -- Sphinx (Alabaster)
  ⟨selTagCls "div" "body", selTagCls "div" "body",
   [selCls "sphinxsidebar", selCls "link-header"]⟩,
  -- MkDocs (Material)
  ⟨selCls "md-main", selCls "md-content__inner",
   [selCls "md-sidebar", selCls "md-footer", selCls "md-header", selCls "md-clipboard"]⟩,
  -- GitBook (Legacy); ".page-inner section" is a descendant chain
  ⟨selCls "page-inner", [[⟨none, [Cond.cls "page-inner"]⟩, ⟨some "section", []⟩]],
   [selCls "book-summary", selCls "book-header"]⟩,
  -- GitBook (Cloud)
  ⟨selTag "main", selTag "main",
   [selTag "nav", selTagAttrSub "div" "class" "sidebar"]⟩,
  -- Hugo (General); ".content, .post-content" is a union
  ⟨selTag "main", [[⟨none, [Cond.cls "content"]⟩], [⟨none, [Cond.cls "post-content"]⟩]],
   [selTag "header", selTag "footer", selCls "menu"]⟩,
  -- Nextra
  ⟨selTag "main", selTag "main",
   [selTag "nav", selTag "footer", selCls "nextra-sidebar-container"]⟩,
  -- NY Times
  ⟨selId "site-content", selTagAttrEq "section" "data-testid" "story-content",
   [selId "site-content-skip", selAttrEq "data-testid" "related-links",
    selAttrEq "data-testid" "newsletter-signup"]⟩,
  -- BBC News
  ⟨selAttrEq "role" "main", selAttrEq "data-component" "text-block",
   [selAttrEq "role" "complementary", selCls "bbc-1151pbn"]⟩,
  -- CNN
  ⟨selCls "article__content", selCls "Paragraph__component",
   [selCls "el-spoke-story", selCls "zn-body__read-more", selCls "ad-container"]⟩,
  -- Reuters
  ⟨selTag "main", selAttrSub "class" "article-body__content",
   [selAttrEq "data-testid" "sidebar", selTag "nav", selCls "read-next-container"]⟩]

/-- The static global EXCLUSION_SELECTORS list, src/extractor/mod.rs lines
89-97, in source order. -/
def EXCLUSION_SELECTORS : List Sel := [
  selTag "header", selTag "footer", selTag "nav", selTag "aside",
  selAttrEq "role" "navigation", selAttrEq "role" "banner",
  selAttrEq "role" "contentinfo", selAttrEq "role" "alert",
  selCls "ad", selCls "advertisement", selAttrSub "class" "google_ads",
  selAttrSub "id" "div-gpt-ad", selCls "share-buttons", selCls "social-media",
  selCls "twitter-tweet", selTagAttrSub "div" "class" "share",
  selCls "modal", selCls "popup", selCls "overlay",
  selAttrSub "class" "cookie", selAttrSub "class" "consent",
  selCls "author-bio", selCls "timestamp", selCls "meta-data",
  selCls "no-print", selCls "print-only"]

/-- Whether a fragment-level node is dropped by the exclusion filter: element
nodes are dropped when any selector matches them (matched with empty ancestry,
as they are direct children of the re-parsed fragment); text nodes pass
through unfiltered (src/extractor/mod.rs lines 143-160). -/
def isExcluded (excls : List Sel) : HNode → Bool
  | HNode.elem t a _ => excls.any (fun s => selMatches s [] t a)
  | HNode.text _ => false

def filterChildren (excls : List Sel) (ns : List HNode) : List HNode :=
  ns.filter (fun n => !(isExcluded excls n))

/-- Tier-1 step, src/extractor/mod.rs lines 128-166.  The selected content
elements are exactly the direct children of the fragment re-parsed from their
concatenated serializations, and the concatenated serialization is empty iff
no element was selected (an element's serialization is never empty). -/
def apply_framework_extraction (doc : List HNode) (fw : Framework) : Option (List HNode) :=
  if (selectNodes fw.main_container [] doc).isEmpty then none
  else
    let content := selectNodes fw.text_content_selector [] doc
    if content.isEmpty then none
    else some (filterChildren (fw.exclusions ++ EXCLUSION_SELECTORS) content)

/-- Tier-2 step, src/extractor/mod.rs lines 168-199: the first semantic
selector with a match wins; the fragment re-parsed from the matched element's
serialization has that element as its single direct child. -/
def apply_semantic_extraction (doc : List HNode) : Option (List HNode) :=
  [selAttrEq "itemprop" "articleBody", selAttrEq "role" "main"].findSome?
    (fun s =>
      match selectNodes s [] doc with
      | [] => none
      | e :: _ => some (filterChildren EXCLUSION_SELECTORS [e]))

/-- The tiered cascade `extract_content`, src/extractor/mod.rs lines 100-126.
`r` abstracts the external readability crate of tier 3 (its `new`/`parse`/
`content` option chain collapses to one `Option` result). -/
def extract_content (r : List HNode → Option (List HNode)) (doc : List HNode) : List HNode :=
  match FRAMEWORKS.findSome? (fun fw => apply_framework_extraction doc fw) with
  | some ns => ns
  | none =>
    match apply_semantic_extraction doc with
    | some ns => ns
    | none =>
      match r doc with
      | some ns => ns
      | none => doc

/-- Readability stub used in concrete evaluations: tier 3 finds nothing. -/
def rNone : List HNode → Option (List HNode) := fun _ => none

/-- Link record, src/models.rs lines 20-24. -/
structure Link where
  href : String
  text : String
deriving DecidableEq

/-- Observable interaction of the browser code with the outside world:
navigations, sleeps (poll intervals, settle delays, backoffs) and pagination
clicks, in program order. -/
inductive Ev where
  | nav (attempt : Nat)
  | sleep (ms : Nat)
  | click (attempt page : Nat)
deriving DecidableEq

instance {ε α : Type} [DecidableEq ε] [DecidableEq α] : DecidableEq (Except ε α) := fun a b =>
  match a, b with
  | Except.ok x, Except.ok y =>
    if h : x = y then isTrue (by rw [h]) else isFalse (by intro hc; cases hc; exact h rfl)
  | Except.error x, Except.error y =>
    if h : x = y then isTrue (by rw [h]) else isFalse (by intro hc; cases hc; exact h rfl)
  | Except.ok _, Except.error _ => isFalse (by intro hc; cases hc)
  | Except.error _, Except.ok _ => isFalse (by intro hc; cases hc)

/-- The required domain of search results, src/browser.rs lines 219 and 350. -/
def androidDomain : String := "https://developer.android.com/"

def maxWaitMs : Nat := 10000

def checkIntervalMs : Nat := 250

/-- Tick budget of the readiness polls: max_wait_ms / check_interval_ms. -/
def numTicks : Nat := maxWaitMs / checkIntervalMs

/-- Bounded poll loop shared by scrape_page (src/browser.rs lines 76-112),
search readiness (lines 169-186) and pagination verification (lines 279-330):
up to `fuel` ticks starting at tick `t`; a tick whose probe holds emits
`onHit` (the settle sleeps) and stops the loop; a failed tick emits the
interval sleep.  Returns (hit, number of probe evaluations, events). -/
def pollTicks (probe : Nat → Bool) (onHit : List Ev) (intervalMs : Nat) : Nat → Nat → Bool × Nat × List Ev
  | 0, _ => (false, 0, [])
  | fuel + 1, t =>
    if probe t then (true, 1, onHit)
    else
      let r := pollTicks probe onHit intervalMs fuel (t + 1)
      (r.fst, r.snd.fst + 1, Ev.sleep intervalMs :: r.snd.snd)

/-- The per-call filter-and-dedup of src/browser.rs lines 216-223 and 347-354:
keep links whose href starts with the android domain, whose text is non-empty
and whose href is not yet in `seen`; the href is inserted into `seen` exactly
when the first two tests pass (Rust's short-circuiting `&&` with
`seen.insert`). -/
def filterDedup (seen : List String) : List Link → List Link × List String
  | [] => ([], seen)
  | l :: ls =>
    if strStarts l.href androidDomain && l.text != "" then
      if seen.contains l.href then filterDedup seen ls
      else
        let r := filterDedup (l.href :: seen) ls
        (l :: r.fst, r.snd)
    else filterDedup seen ls

/-- The fallback extraction script (src/browser.rs line 239) runs inside the
page: filter anchors by domain and non-empty trimmed text, then dedup by href
keeping first occurrences; it never touches the Rust-side `seen` set. -/
def jsFallbackReduce (acc : List Link) : List Link → List Link
  | [] => acc
  | l :: ls =>
    if acc.any (fun x => x.href == l.href) then jsFallbackReduce acc ls
    else jsFallbackReduce (acc ++ [l]) ls

def jsFallback (ls : List Link) : List Link :=
  jsFallbackReduce [] (ls.filter (fun l => strStarts l.href androidDomain && l.text != ""))

/-- Abstracted external world of one search call: per-attempt navigation
responses, readiness traces, page extractions and per-page pagination
behavior.  Pure traces stand in for the live page evaluations of
src/browser.rs; indices are (attempt, page, tick) as applicable. -/
structure SearchEnv where
  nav : Nat → Option (Bool × Nat)
  gsReady : Nat → Nat → Bool
  primary : Nat → List Link
  fallback : Nat → List Link
  clickOk : Nat → Nat → Bool
  loadStart : Nat → Nat → Nat → Bool
  loadDone : Nat → Nat → Nat → Bool
  pageText : Nat → Nat → Nat → String
  more : Nat → Nat → List Link

/-- Pagination loading verification for target page `p` (src/browser.rs lines
271-330): first poll up to 2000/250 ticks for the loading indicator to appear
(no settle on hit); since `loading_detected` is initialized to `true` in the
source (line 276), the completion poll always runs: up to 10000/250 ticks for
a tick with the loading indicator absent and the displayed page number equal
to `p`, which ends the wait with a 500 ms settle delay. -/
def pagVerifyPoll (env : SearchEnv) (a p : Nat) : Bool × List Ev :=
  let w1 := pollTicks (env.loadStart a p) [] checkIntervalMs (2000 / checkIntervalMs) 0
  let w2 := pollTicks
    (fun t => !env.loadDone a p t && env.pageText a p t == toString p)
    [Ev.sleep 500] checkIntervalMs numTicks 0
  (w2.fst, w1.snd.snd ++ w2.snd.snd)

/-- The pagination loop body over target pages (src/browser.rs lines 252-358).
A failed click skips its page and continues with the next page number; a
successful click whose loading verification fails breaks the loop, keeping
links gathered so far; a verified page's links are filtered and deduped
against the call's `seen` set and appended. -/
def pagLoop (env : SearchEnv) (a : Nat) : List Nat → List Link → List String → List Link × List String × List Ev
  | [], links, seen => (links, seen, [])
  | p :: ps, links, seen =>
    if env.clickOk a p then
      let w := pagVerifyPoll env a p
      if w.fst then
        let fd := filterDedup seen (env.more a p)
        let rest := pagLoop env a ps (links ++ fd.fst) fd.snd
        (rest.fst, rest.snd.fst, Ev.click a p :: (w.snd ++ rest.snd.snd))
      else (links, seen, Ev.click a p :: w.snd)
    else
      let rest := pagLoop env a ps links seen
      (rest.fst, rest.snd.fst, Ev.click a p :: rest.snd.snd)

/-- The target pages 2..=max_page of the pagination loop. -/
def pagesFor (maxPage : Nat) : List Nat := List.range' 2 (maxPage - 1)

/-- Outcome of one attempt of the search retry loop. -/
inductive ARes where
  | fail (msg : String)
  | retry
  | done (links : List Link)

/-- The part of a search attempt after a successful (or absent) navigation
response (src/browser.rs lines 162-381): readiness poll, then on timeout
either the final-attempt error or a backoff sleep that falls through to
extraction; primary extraction filtered against a fresh `seen`, fallback when
the primary yields nothing, pagination, then the success/retry decision. -/
def attemptRest (env : SearchEnv) (mp a : Nat) : ARes × List Ev :=
  let po := pollTicks (env.gsReady a) [Ev.sleep 300] checkIntervalMs numTicks 0
  let ready := po.fst
  if !ready && a == 3 then (ARes.fail "Search results did not load after 3 attempts", po.snd.snd)
  else
    let bevs := if ready then [] else [Ev.sleep (1000 * 2 ^ (a - 1))]
    let pf := filterDedup [] (env.primary a)
    let links1 := if pf.fst.isEmpty then jsFallback (env.fallback a) else pf.fst
    let pg := pagLoop env a (pagesFor mp) links1 pf.snd
    let evs := po.snd.snd ++ bevs ++ pg.snd.snd
    if !pg.fst.isEmpty then (ARes.done pg.fst, evs)
    else if a == 3 then (ARes.fail "No links extracted after 3 attempts", evs)
    else (ARes.retry, evs ++ [Ev.sleep (1000 * 2 ^ (a - 1))])

/-- One attempt without its leading navigation event (src/browser.rs lines
142-160): a present non-ok response errors on the final attempt and otherwise
sleeps a fixed 1 s and retries; an ok or absent response proceeds. -/
def attemptCore (env : SearchEnv) (mp a : Nat) : ARes × List Ev :=
  match env.nav a with
  | some (ok, status) =>
    if !ok then
      if a == 3 then (ARes.fail ("HTTP error: " ++ toString status), [])
      else (ARes.retry, [Ev.sleep 1000])
    else attemptRest env mp a
  | none => attemptRest env mp a

def attemptBody (env : SearchEnv) (mp a : Nat) : ARes × List Ev :=
  let c := attemptCore env mp a
  (c.fst, Ev.nav a :: c.snd)

/-- The retry loop over the fixed attempt numbers (src/browser.rs lines
141-389), with the dead post-loop empty-result error of lines 386-388. -/
def searchGo (env : SearchEnv) (mp : Nat) : List Nat → Except String (List Link) × List Ev
  | [] => (Except.error "No links extracted", [])
  | a :: rest =>
    match attemptBody env mp a with
    | (ARes.done ls, e) => (Except.ok ls, e)
    | (ARes.fail m, e) => (Except.error m, e)
    | (ARes.retry, e) =>
      let r := searchGo env mp rest
      (r.fst, e ++ r.snd)

/-- BrowserManager::search_android_dev, src/browser.rs lines 128-390, as a
function of the abstracted environment, returning the final link list (the
source serializes it to JSON) together with the event trace. -/
def search_android_dev (env : SearchEnv) (maxPage : Nat) : Except String (List Link) × List Ev :=
  searchGo env maxPage [1, 2, 3]

/-- SimpleServer::search_android, src/server.rs lines 40-49: the optional
max_page parameter defaults to 1. -/
def search_android (env : SearchEnv) (maxPage : Option Nat) : Except String (List Link) × List Ev :=
  search_android_dev env (maxPage.getD 1)

/-- Abstracted external world of one crawl call (src/browser.rs lines 32-126):
navigation outcome, per-tick indicator existence and content-richness traces
(three ready indicators, lines 66-70), and the DOM forest that the serializer
script flattens to a string. -/
structure CrawlEnv where
  navOk : Bool
  navStatus : Nat
  indEx : Nat → Nat → Bool
  indRich : Nat → Nat → Bool
  dom : List HNode

/-- One readiness tick of scrape_page (lines 76-102): some of the three
indicators has both its existence check and its content-richness check true
(the source breaks at the first such indicator; the tick outcome is the
same). -/
def crawlTickReady (env : CrawlEnv) (t : Nat) : Bool :=
  (List.range 3).any (fun i => env.indEx t i && env.indRich t i)

/-- The readiness poll of scrape_page (lines 72-112): numTicks ticks of the
three-indicator probe, a 300 ms settle sleep on the first ready tick, a
250 ms interval sleep on every failed tick. -/
def crawlPoll (env : CrawlEnv) : Bool × Nat × List Ev :=
  pollTicks (crawlTickReady env) [Ev.sleep 300] checkIntervalMs numTicks 0

/-- BrowserManager::scrape_page, src/browser.rs lines 32-126: navigation
(non-ok response errors immediately), readiness poll whose outcome is only
logged, serialization of the rendered DOM by the cached script, and direct
markdown conversion `conv` (the external html2md collaborator) of that
serialized HTML. -/
def scrape_page (conv : String → String) (env : CrawlEnv) : Except String String × List Ev :=
  if !env.navOk then (Except.error ("HTTP error: " ++ toString env.navStatus), [])
  else
    let po := crawlPoll env
    (Except.ok (conv (hserializeList env.dom)), po.snd.snd)

/-- Stated from the spec data flow for claim C1 (ContentExtractor on the crawl
path before markdown conversion): the crawl result as the markdown conversion
of extract_content applied to the serialized page, everything else as in
scrape_page.  The re-parse of the serialized DOM is the DOM forest itself. -/
def spec_scrape (r : List HNode → Option (List HNode)) (conv : String → String)
    (env : CrawlEnv) : Except String String × List Ev :=
  if !env.navOk then (Except.error ("HTTP error: " ++ toString env.navStatus), [])
  else
    let po := crawlPoll env
    (Except.ok (conv (hserializeList (extract_content r env.dom))), po.snd.snd)

/-! Concrete documents, links and environments used in counterexamples and
witnesses. -/

/-- A Docusaurus-shaped page: a main container with leading text and one
article, so tier 1 strictly shrinks it. -/
def docArticle : List HNode :=
  [HNode.elem "main" []
    [HNode.text "pre", HNode.elem "article" [("class", "markdown")] [HNode.text "x"]]]

/-- A page whose only tier-1 content element is itself excluded (class `ad`
is on the global exclusion list), so the filtered tier-1 output is empty. -/
def docAllExcluded : List HNode :=
  [HNode.elem "main" [] [HNode.elem "article" [("class", "markdown ad")] [HNode.text "x"]]]

/-- Nested Sphinx-Alabaster containers: `div.body` directly inside
`div.body`, so the content selector selects both and re-extraction of the
output selects the inner one twice. -/
def docNested : List HNode :=
  [HNode.elem "div" [("class", "body")]
    [HNode.elem "div" [("class", "body")] [HNode.text "x"]]]

/-- A bare text document: no selector matches, every tier falls through. -/
def docText : List HNode := [HNode.text "hi"]

/-- Identity stand-in for the substitutable external markdown converter. -/
def convId : String → String := fun s => s

def lA : Link := ⟨"https://developer.android.com/a", "t"⟩

def lOne : Link := ⟨"https://developer.android.com/one", "u"⟩

def lThree : Link := ⟨"https://developer.android.com/three", "v"⟩

/-- Search environment where the primary selector finds nothing, the fallback
finds `lA`, and page 2 serves `lA` again: the fallback batch never enters the
`seen` set. -/
def envDupFallback : SearchEnv where
  nav := fun _ => some (true, 200)
  gsReady := fun _ _ => true
  primary := fun _ => []
  fallback := fun a => if a == 1 then [lA] else []
  clickOk := fun _ _ => true
  loadStart := fun _ _ _ => true
  loadDone := fun _ _ _ => false
  pageText := fun _ p _ => toString p
  more := fun _ _ => [lA]

/-- Search environment where the click on page 2 fails to resolve but page 3
clicks fine and serves `lThree`. -/
def envClickSkip : SearchEnv where
  nav := fun _ => some (true, 200)
  gsReady := fun _ _ => true
  primary := fun a => if a == 1 then [lOne] else []
  fallback := fun _ => []
  clickOk := fun _ p => p != 2
  loadStart := fun _ _ _ => true
  loadDone := fun _ _ _ => false
  pageText := fun _ p _ => toString p
  more := fun _ p => if p == 3 then [lThree] else []

/-- Search environment where pagination clicks succeed but the loading
indicator never clears, so loading verification fails. -/
def envStall : SearchEnv where
  nav := fun _ => some (true, 200)
  gsReady := fun _ _ => true
  primary := fun _ => [lOne]
  fallback := fun _ => []
  clickOk := fun _ _ => true
  loadStart := fun _ _ _ => true
  loadDone := fun _ _ _ => true
  pageText := fun _ _ _ => ""
  more := fun _ _ => [lThree]

/-- Search environment whose navigation responses are non-ok on every
attempt (status 500, 500, 502). -/
def envHttpFail : SearchEnv where
  nav := fun a => if a == 3 then some (false, 502) else some (false, 500)
  gsReady := fun _ _ => true
  primary := fun _ => []
  fallback := fun _ => []
  clickOk := fun _ _ => false
  loadStart := fun _ _ _ => false
  loadDone := fun _ _ _ => true
  pageText := fun _ _ _ => ""
  more := fun _ _ => []

/-- Search environment where the results title never appears and every
extraction is empty. -/
def envNeverReady : SearchEnv where
  nav := fun _ => none
  gsReady := fun _ _ => false
  primary := fun _ => []
  fallback := fun _ => []
  clickOk := fun _ _ => false
  loadStart := fun _ _ _ => false
  loadDone := fun _ _ _ => true
  pageText := fun _ _ _ => ""
  more := fun _ _ => []

/-- Search environment where the results title never appears yet the primary
selector would deliver `lOne` on the third attempt. -/
def envLateLinks : SearchEnv where
  nav := fun _ => none
  gsReady := fun _ _ => false
  primary := fun a => if a == 3 then [lOne] else []
  fallback := fun _ => []
  clickOk := fun _ _ => false
  loadStart := fun _ _ _ => false
  loadDone := fun _ _ _ => true
  pageText := fun _ _ _ => ""
  more := fun _ _ => []

/-- Search environment where the results title never appears but the primary
selector delivers `lOne` already on attempt 1. -/
def envTimeoutLinks : SearchEnv where
  nav := fun _ => none
  gsReady := fun _ _ => false
  primary := fun a => if a == 1 then [lOne] else []
  fallback := fun _ => []
  clickOk := fun _ _ => false
  loadStart := fun _ _ _ => false
  loadDone := fun _ _ _ => true
  pageText := fun _ _ _ => ""
  more := fun _ _ => []

/-- Search environment that is immediately ready on every attempt but whose
extractions all come back empty. -/
def envReadyEmpty : SearchEnv where
  nav := fun _ => none
  gsReady := fun _ _ => true
  primary := fun _ => []
  fallback := fun _ => []
  clickOk := fun _ _ => false
  loadStart := fun _ _ _ => false
  loadDone := fun _ _ _ => true
  pageText := fun _ _ _ => ""
  more := fun _ _ => []

/-- Search environment that is immediately ready and delivers `lOne` from the
primary selector on attempt 1. -/
def envReadyLinks : SearchEnv where
  nav := fun _ => none
  gsReady := fun _ _ => true
  primary := fun a => if a == 1 then [lOne] else []
  fallback := fun _ => []
  clickOk := fun _ _ => false
  loadStart := fun _ _ _ => false
  loadDone := fun _ _ _ => true
  pageText := fun _ _ _ => ""
  more := fun _ _ => []

/-- Crawl environment whose page is ready on the first tick and renders
docArticle. -/
def crawlEnvReady : CrawlEnv where
  navOk := true
  navStatus := 200
  indEx := fun _ _ => true
  indRich := fun _ _ => true
  dom := docArticle

/-- Crawl environment whose readiness indicators never fire. -/
def crawlEnvNever : CrawlEnv where
  navOk := true
  navStatus := 200
  indEx := fun _ _ => false
  indRich := fun _ _ => false
  dom := docArticle

/-- Event predicate: true for every event that is not a pagination click. -/
def evNotClick : Ev → Bool
  | Ev.click _ _ => false
  | _ => true

/-! Helper lemmas about the poll loop and the pagination page list, shared by
several claim theorems below. -/

theorem pollTicks_evals_le (probe : Nat → Bool) (onHit : List Ev) (i : Nat) :
    ∀ fuel t, (pollTicks probe onHit i fuel t).snd.fst ≤ fuel := by
  intro fuel
  induction fuel with
  | zero => intro t; simp [pollTicks]
  | succ n ih =>
    intro t
    by_cases h : probe t
    · simp [pollTicks, h]
    · simp only [pollTicks, h, Bool.false_eq_true, if_false]
      exact Nat.succ_le_succ (ih (t + 1))

theorem pollTicks_never (probe : Nat → Bool) (onHit : List Ev) (i : Nat)
    (h : ∀ u, probe u = false) :
    ∀ fuel t, pollTicks probe onHit i fuel t = (false, fuel, List.replicate fuel (Ev.sleep i)) := by
  intro fuel
  induction fuel with
  | zero => intro t; simp [pollTicks]
  | succ n ih => intro t; simp [pollTicks, h t, ih (t + 1), List.replicate_succ]

theorem pollTicks_firstHit (probe : Nat → Bool) (onHit : List Ev) (i t0 : Nat)
    (h0 : probe t0 = true) (hb : ∀ u, u < t0 → probe u = false) :
    ∀ fuel s, s ≤ t0 → t0 - s < fuel →
      pollTicks probe onHit i fuel s
        = (true, t0 - s + 1, List.replicate (t0 - s) (Ev.sleep i) ++ onHit) := by
  intro fuel
  induction fuel with
  | zero => intro s hs hf; exact absurd hf (by omega)
  | succ n ih =>
    intro s hs hf
    by_cases hst : s = t0
    · subst hst
      simp [pollTicks, h0]
    · have hlt : s < t0 := Nat.lt_of_le_of_ne hs hst
      have h2 : t0 - (s + 1) < n := by omega
      rw [show t0 - s = (t0 - (s + 1)) + 1 by omega]
      simp [pollTicks, hb s hlt, ih (s + 1) hlt h2, List.replicate_succ]

theorem pollTicks_hitZero (probe : Nat → Bool) (onHit : List Ev) (i fuel : Nat)
    (h0 : probe 0 = true) (hf : 0 < fuel) :
    pollTicks probe onHit i fuel 0 = (true, 1, onHit) := by
  have h := pollTicks_firstHit probe onHit i 0 h0
    (fun u hu => absurd hu (Nat.not_lt_zero u)) fuel 0 (Nat.le_refl 0) (by omega)
  simpa using h

theorem pagesFor_eq_nil (mp : Nat) (h : mp ≤ 1) : pagesFor mp = [] := by
  interval_cases mp <;> rfl

/-- C1, counterexample: with the identity stand-in for the substitutable
markdown converter and a Docusaurus-shaped page, the crawl pipeline's output
is the conversion of the raw serialized HTML and differs from the spec's
pipeline that interposes extract_content, so crawl_url's result is not the
markdown conversion of extract(serialize(page)). -/
theorem C1_counterexample :
    (scrape_page convId crawlEnvReady).fst ≠ (spec_scrape rNone convId crawlEnvReady).fst := by
  decide

/-- C1, amended: scrape_page hands the serialized HTML directly to the
markdown converter; the extraction cascade is not invoked on the crawl path
(extract_content has no caller in the repository). -/
theorem C1_theorem :
    ∀ (conv : String → String) (env : CrawlEnv), env.navOk = true →
      (scrape_page conv env).fst = Except.ok (conv (hserializeList env.dom)) := by
  intro conv env h
  simp [scrape_page, h]

/-- C1, witness: the amended claim at the identity converter and the ready
crawl environment. -/
theorem C1_witness :
    (scrape_page convId crawlEnvReady).fst = Except.ok (convId (hserializeList crawlEnvReady.dom)) :=
  C1_theorem convId crawlEnvReady rfl

/-- C2, failing input: the primary selector finds nothing, the fallback batch
delivers link lA, and page 2 delivers lA again; because the fallback script
never registers its hrefs in the Rust-side seen set, the final result holds
lA twice — the no-duplicate-href invariant of the claim is violated by the
code. -/
theorem C2_theorem :
    (search_android_dev envDupFallback 2).fst = Except.ok [lA, lA]
      ∧ ¬ ([lA, lA].map Link.href).Nodup := by
  constructor
  · decide
  · decide

/-- C6, counterexample: docAllExcluded matches the Docusaurus descriptor and
its only content element is dropped by the exclusion filter, yet the cascade
returns that empty tier-1 result instead of falling through (the semantic
tier finds nothing here, and the identity tier would return the non-empty
document). -/
theorem C6_counterexample :
    hserializeList (extract_content rNone docAllExcluded) = ""
      ∧ hserializeList docAllExcluded ≠ ""
      ∧ (apply_semantic_extraction docAllExcluded).isNone = true := by
  refine ⟨by decide, by decide, by decide⟩

/-- C6, amended: the framework tier falls through exactly when the container
selector matches nothing or the content selector selects nothing; whenever
both match, the tier returns its direct-children-filtered result even when
that result is empty. -/
theorem C6_theorem :
    ∀ (doc : List HNode) (fw : Framework),
      apply_framework_extraction doc fw = none ↔
        ((selectNodes fw.main_container [] doc).isEmpty = true
          ∨ (selectNodes fw.text_content_selector [] doc).isEmpty = true) := by
  intro doc fw
  unfold apply_framework_extraction
  by_cases h1 : (selectNodes fw.main_container [] doc).isEmpty <;>
    by_cases h2 : (selectNodes fw.text_content_selector [] doc).isEmpty <;>
      simp [h1, h2]

/-- C7, counterexample: on docNested both the first and the second
application of the cascade resolve in the framework tier, yet the second
application duplicates the nested inner container, so re-applied output is
not content-equivalent to the first output even though both came from the
same tier. -/
theorem C7_counterexample :
    hserializeList (extract_content rNone (extract_content rNone docNested))
        ≠ hserializeList (extract_content rNone docNested)
      ∧ (FRAMEWORKS.findSome? (fun fw => apply_framework_extraction docNested fw)).isSome = true
      ∧ (FRAMEWORKS.findSome?
          (fun fw => apply_framework_extraction (extract_content rNone docNested) fw)).isSome = true := by
  refine ⟨by decide, by decide, by decide⟩

/-- C7, amended: extract_content is total — when no framework matches, the
semantic tier finds nothing and the readability collaborator returns nothing,
it returns the input unchanged — and it is idempotent whenever the first
application returns its input unchanged; same-tier idempotency in general is
refuted by the counterexample. -/
theorem C7_theorem :
    (∀ (r : List HNode → Option (List HNode)) (doc : List HNode),
        FRAMEWORKS.findSome? (fun fw => apply_framework_extraction doc fw) = none →
        apply_semantic_extraction doc = none → r doc = none →
        extract_content r doc = doc)
      ∧ (∀ (r : List HNode → Option (List HNode)) (doc : List HNode),
        extract_content r doc = doc →
        extract_content r (extract_content r doc) = extract_content r doc) := by
  constructor
  · intro r doc h1 h2 h3
    simp [extract_content, h1, h2, h3]
  · intro r doc h
    rw [h]
    exact h

/-- C7, witness: both amended parts at the bare text document, where every
tier falls through and the cascade is the identity. -/
theorem C7_witness :
    extract_content rNone docText = docText
      ∧ extract_content rNone (extract_content rNone docText) = extract_content rNone docText := by
  have h1 := C7_theorem.1 rNone docText rfl rfl rfl
  exact ⟨h1, C7_theorem.2 rNone docText h1⟩

/-- C3, counterexample: the click for page 2 fails, yet page 3 is still
requested (its click event appears) and its links are appended to the result,
so pagination is not aborted entirely on a failed click. -/
theorem C3_counterexample :
    (search_android_dev envClickSkip 3).fst = Except.ok [lOne, lThree]
      ∧ (search_android_dev envClickSkip 3).snd.contains (Ev.click 1 3) = true
      ∧ envClickSkip.clickOk 1 2 = false := by
  refine ⟨by decide, by decide, by decide⟩

/-- C3, amended: a click that fails to resolve only skips its own page —
links and seen set are unchanged and the walker continues with the next page
number; pagination aborts (keeping links gathered so far) exactly when a
successful click is not followed by verified loading within budget. -/
theorem C3_theorem :
    (∀ (env : SearchEnv) (a p : Nat) (ps : List Nat) (links : List Link) (seen : List String),
        env.clickOk a p = false →
        pagLoop env a (p :: ps) links seen
          = ((pagLoop env a ps links seen).fst,
             (pagLoop env a ps links seen).snd.fst,
             Ev.click a p :: (pagLoop env a ps links seen).snd.snd))
      ∧ (∀ (env : SearchEnv) (a p : Nat) (ps : List Nat) (links : List Link) (seen : List String),
        env.clickOk a p = true →
        (pagVerifyPoll env a p).fst = false →
        pagLoop env a (p :: ps) links seen
          = (links, seen, Ev.click a p :: (pagVerifyPoll env a p).snd)) := by
  constructor
  · intro env a p ps links seen h
    simp [pagLoop, h]
  · intro env a p ps links seen h1 h2
    simp [pagLoop, h1, h2]

/-- C3, witness: the skip part on the environment whose page-2 click fails,
and the abort part on the environment whose loading indicator never clears. -/
theorem C3_witness :
    pagLoop envClickSkip 1 [2] [] []
        = ((pagLoop envClickSkip 1 [] [] []).fst,
           (pagLoop envClickSkip 1 [] [] []).snd.fst,
           Ev.click 1 2 :: (pagLoop envClickSkip 1 [] [] []).snd.snd)
      ∧ pagLoop envStall 1 [2, 3] [lOne] []
        = ([lOne], [], Ev.click 1 2 :: (pagVerifyPoll envStall 1 2).snd) :=
  ⟨C3_theorem.1 envClickSkip 1 2 [] [] [] rfl,
   C3_theorem.2 envStall 1 2 [3] [lOne] [] rfl (by decide)⟩

/-- C4, counterexample: with non-ok responses on all three attempts, the
sleep after the failed second attempt is 1 second, not the claimed
2^(2-1) = 2 seconds; the final attempt does surface the HTTP error. -/
theorem C4_counterexample :
    (search_android_dev envHttpFail 1).snd
        = [Ev.nav 1, Ev.sleep 1000, Ev.nav 2, Ev.sleep 1000, Ev.nav 3]
      ∧ (search_android_dev envHttpFail 1).snd.contains (Ev.sleep (1000 * 2 ^ (2 - 1))) = false
      ∧ (search_android_dev envHttpFail 1).fst = Except.error "HTTP error: 502" := by
  refine ⟨by decide, by decide, by decide⟩

/-- C4, amended: a non-success HTTP-class response on a non-final search
attempt causes a fixed 1-second sleep before the retry, independent of the
attempt number; on the final attempt it surfaces as the HTTP error. -/
theorem C4_theorem :
    (∀ (env : SearchEnv) (mp a st : Nat), (a = 1 ∨ a = 2) →
        env.nav a = some (false, st) →
        attemptBody env mp a = (ARes.retry, [Ev.nav a, Ev.sleep 1000]))
      ∧ (∀ (env : SearchEnv) (mp st : Nat),
        env.nav 3 = some (false, st) →
        attemptBody env mp 3 = (ARes.fail ("HTTP error: " ++ toString st), [Ev.nav 3])) := by
  constructor
  · intro env mp a st h hnav
    rcases h with h | h <;> subst h <;> simp [attemptBody, attemptCore, hnav]
  · intro env mp st hnav
    simp [attemptBody, attemptCore, hnav]

/-- C4, witness: both amended parts on the environment with failing
navigation responses. -/
theorem C4_witness :
    attemptBody envHttpFail 1 1 = (ARes.retry, [Ev.nav 1, Ev.sleep 1000])
      ∧ attemptBody envHttpFail 1 3 = (ARes.fail ("HTTP error: " ++ toString 502), [Ev.nav 3]) :=
  ⟨C4_theorem.1 envHttpFail 1 1 500 (Or.inl rfl) rfl,
   C4_theorem.2 envHttpFail 1 502 rfl⟩

/-! Further helper lemmas for the pagination-free search claims. -/

theorem attemptBody_congr_mp (env : SearchEnv) (mp mp2 a : Nat) (h : pagesFor mp = pagesFor mp2) :
    attemptBody env mp a = attemptBody env mp2 a := by
  unfold attemptBody attemptCore attemptRest
  rw [h]

theorem searchGo_congr_mp (env : SearchEnv) (mp mp2 : Nat) (h : pagesFor mp = pagesFor mp2) :
    ∀ l, searchGo env mp l = searchGo env mp2 l := by
  intro l
  induction l with
  | nil => rfl
  | cons a rest ih =>
    simp only [searchGo, attemptBody_congr_mp env mp mp2 a h, ih]

theorem pollTicks_noClick (probe : Nat → Bool) (onHit : List Ev) (i : Nat)
    (hh : onHit.all evNotClick = true) :
    ∀ fuel t, ((pollTicks probe onHit i fuel t).snd.snd).all evNotClick = true := by
  intro fuel
  induction fuel with
  | zero => intro t; simp [pollTicks]
  | succ n ih =>
    intro t
    by_cases h : probe t
    · simpa [pollTicks, h] using hh
    · simp [pollTicks, h, evNotClick, ih (t + 1)]

theorem attemptRest_noClick (env : SearchEnv) (a : Nat) :
    ((attemptRest env 1 a).snd).all evNotClick = true := by
  have hpoll := pollTicks_noClick (env.gsReady a) [Ev.sleep 300] checkIntervalMs (by decide) numTicks 0
  have hpoll3 := pollTicks_noClick (env.gsReady 3) [Ev.sleep 300] checkIntervalMs (by decide) numTicks 0
  unfold attemptRest
  simp only [show pagesFor 1 = [] from rfl, pagLoop]
  split_ifs <;> simp_all [List.all_append, evNotClick]

theorem attemptBody_noClick (env : SearchEnv) (a : Nat) :
    ((attemptBody env 1 a).snd).all evNotClick = true := by
  have hrest := attemptRest_noClick env a
  unfold attemptBody attemptCore
  rcases h : env.nav a with _ | ⟨ok, st⟩
  · simpa [evNotClick] using hrest
  · by_cases hok : ok = true
    · simp [hok, evNotClick, hrest]
    · simp only [Bool.not_eq_true] at hok
      subst hok
      by_cases ha : a == 3
      · simp [ha, evNotClick]
      · simp [ha, evNotClick]

theorem searchGo_noClick (env : SearchEnv) :
    ∀ l, ((searchGo env 1 l).snd).all evNotClick = true := by
  intro l
  induction l with
  | nil => simp [searchGo]
  | cons a rest ih =>
    have hb := attemptBody_noClick env a
    rcases hab : attemptBody env 1 a with ⟨res, e⟩
    have he : e.all evNotClick = true := by rw [hab] at hb; exact hb
    cases res <;> simp [searchGo, hab, List.all_append, he, ih]

/-- C5, counterexample: the readiness poll times out on all three attempts;
on the third attempt the primary selector would deliver lOne, yet the call
returns the did-not-load error without extracting — on the final attempt the
readiness timeout is fatal, contradicting the claim that the caller always
proceeds with whatever content is present. -/
theorem C5_counterexample :
    (search_android_dev envLateLinks 1).fst
        = Except.error "Search results did not load after 3 attempts"
      ∧ (filterDedup [] (envLateLinks.primary 3)).fst = [lOne] := by
  refine ⟨by decide, by decide⟩

/-- C5, amended: a readiness timeout is non-fatal on the crawl path (the
result is ok whenever navigation succeeded) and on non-final search attempts
(extraction still runs after the backoff sleep and can succeed); on the final
search attempt the timeout is fatal: the call errors without extracting. -/
theorem C5_theorem :
    (∀ (conv : String → String) (env : CrawlEnv), env.navOk = true →
        ∃ s, (scrape_page conv env).fst = Except.ok s)
      ∧ (∀ (env : SearchEnv) (mp : Nat), mp ≤ 1 →
        env.nav 1 = none → (∀ t, env.gsReady 1 t = false) →
        (filterDedup [] (env.primary 1)).fst ≠ [] →
        (search_android_dev env mp).fst = Except.ok ((filterDedup [] (env.primary 1)).fst))
      ∧ (∀ (env : SearchEnv) (mp : Nat), mp ≤ 1 →
        (∀ a, env.nav a = none) → (∀ a t, env.gsReady a t = false) →
        (∀ a, env.primary a = []) → (∀ a, env.fallback a = []) →
        (search_android_dev env mp).fst
          = Except.error "Search results did not load after 3 attempts") := by
  refine ⟨?_, ?_, ?_⟩
  · intro conv env h
    refine ⟨conv (hserializeList env.dom), ?_⟩
    simp [scrape_page, h]
  · intro env mp hmp hnav hgs hne
    have hpoll := pollTicks_never (env.gsReady 1) [Ev.sleep 300] checkIntervalMs hgs numTicks 0
    have hpages := pagesFor_eq_nil mp hmp
    have hemp : (filterDedup [] (env.primary 1)).fst.isEmpty = false := by
      cases hf : (filterDedup [] (env.primary 1)).fst with
      | nil => exact absurd hf hne
      | cons x xs => rfl
    simp [search_android_dev, searchGo, attemptBody, attemptCore, attemptRest,
      hnav, hpoll, hpages, pagLoop, hemp]
  · intro env mp hmp hnav hgs hp hf
    have hpoll : ∀ a, pollTicks (env.gsReady a) [Ev.sleep 300] checkIntervalMs numTicks 0
        = (false, numTicks, List.replicate numTicks (Ev.sleep checkIntervalMs)) :=
      fun a => pollTicks_never _ _ _ (hgs a) numTicks 0
    have hpages := pagesFor_eq_nil mp hmp
    simp [search_android_dev, searchGo, attemptBody, attemptCore, attemptRest,
      hnav, hpoll, hp, hf, hpages, pagLoop, filterDedup, jsFallback, jsFallbackReduce]

/-- C5, witness: the crawl part on the never-ready crawl environment, the
non-final part on the environment whose first attempt times out but extracts
lOne, and the final part on the environment that never becomes ready. -/
theorem C5_witness :
    (∃ s, (scrape_page convId crawlEnvNever).fst = Except.ok s)
      ∧ (search_android_dev envTimeoutLinks 1).fst
          = Except.ok ((filterDedup [] (envTimeoutLinks.primary 1)).fst)
      ∧ (search_android_dev envNeverReady 1).fst
          = Except.error "Search results did not load after 3 attempts" :=
  ⟨C5_theorem.1 convId crawlEnvNever rfl,
   C5_theorem.2.1 envTimeoutLinks 1 (by decide) rfl (fun _ => rfl) (by decide),
   C5_theorem.2.2 envNeverReady 1 (by decide) (fun _ => rfl) (fun _ _ => rfl)
     (fun _ => rfl) (fun _ => rfl)⟩

/-- C8, confirmed: the crawl readiness poll has a tick budget of exactly
10000/250 = 40; its evaluation count never exceeds the budget; when no tick
is ever ready it returns not-ready after exactly numTicks failed evaluations
(each followed by the 250 ms interval sleep); and on the first ready tick t0
it returns ready after t0+1 evaluations with a single trailing 300 ms settle
delay and no further ticks. -/
theorem C8_theorem :
    numTicks = 40
      ∧ (∀ env : CrawlEnv, (crawlPoll env).snd.fst ≤ numTicks)
      ∧ (∀ env : CrawlEnv, (∀ t, crawlTickReady env t = false) →
          crawlPoll env = (false, numTicks, List.replicate numTicks (Ev.sleep checkIntervalMs)))
      ∧ (∀ (env : CrawlEnv) (t0 : Nat), t0 < numTicks →
          crawlTickReady env t0 = true →
          (∀ t, t < t0 → crawlTickReady env t = false) →
          crawlPoll env
            = (true, t0 + 1, List.replicate t0 (Ev.sleep checkIntervalMs) ++ [Ev.sleep 300])) := by
  refine ⟨rfl, ?_, ?_, ?_⟩
  · intro env
    exact pollTicks_evals_le _ _ _ numTicks 0
  · intro env h
    exact pollTicks_never _ _ _ h numTicks 0
  · intro env t0 h1 h2 h3
    have h := pollTicks_firstHit (crawlTickReady env) [Ev.sleep 300] checkIntervalMs t0 h2 h3
      numTicks 0 (Nat.zero_le t0) (by omega)
    simpa using h

/-- C8, witness: the poll bound at the ready environment, the exhaustion case
at the never-ready environment, and the first-tick hit at the ready
environment. -/
theorem C8_witness :
    (crawlPoll crawlEnvReady).snd.fst ≤ numTicks
      ∧ crawlPoll crawlEnvNever
          = (false, numTicks, List.replicate numTicks (Ev.sleep checkIntervalMs))
      ∧ crawlPoll crawlEnvReady
          = (true, 0 + 1, List.replicate 0 (Ev.sleep checkIntervalMs) ++ [Ev.sleep 300]) :=
  ⟨C8_theorem.2.1 crawlEnvReady,
   C8_theorem.2.2.1 crawlEnvNever (fun _ => rfl),
   C8_theorem.2.2.2 crawlEnvReady 0 (by decide) rfl (fun t ht => absurd ht (Nat.not_lt_zero t))⟩

/-- C9, counterexample: when the results title never appears and every
extraction is empty, the inter-attempt sleeps are 1 s twice and then 2 s
twice (the backoff is slept both on readiness timeout and on empty
extraction), and the call surfaces the did-not-load error instead of the
claimed extraction-empty error. -/
theorem C9_counterexample :
    (search_android_dev envNeverReady 1).fst
        = Except.error "Search results did not load after 3 attempts"
      ∧ ((search_android_dev envNeverReady 1).snd.filter (fun e => e != Ev.sleep 250))
          = [Ev.nav 1, Ev.sleep 1000, Ev.sleep 1000,
             Ev.nav 2, Ev.sleep 2000, Ev.sleep 2000, Ev.nav 3] := by
  refine ⟨by decide, by decide⟩

/-- C9, amended: when the results indicator loads on every attempt, an
attempt succeeds iff its filtered link set is non-empty, a failed non-final
attempt is followed by exactly one sleep of 2^(attempt-1) seconds and a
fresh attempt from navigation, at most three attempts run, and after three
failed attempts the call surfaces the extraction-empty error; a successful
first attempt returns exactly its filtered primary links after the single
300 ms settle delay. -/
theorem C9_theorem :
    (∀ (env : SearchEnv) (mp : Nat), mp ≤ 1 →
        (∀ a, env.nav a = none) → (∀ a, env.gsReady a 0 = true) →
        (∀ a, env.primary a = []) → (∀ a, env.fallback a = []) →
        search_android_dev env mp
          = (Except.error "No links extracted after 3 attempts",
             [Ev.nav 1, Ev.sleep 300, Ev.sleep 1000,
              Ev.nav 2, Ev.sleep 300, Ev.sleep 2000,
              Ev.nav 3, Ev.sleep 300]))
      ∧ (∀ (env : SearchEnv) (mp : Nat), mp ≤ 1 →
        env.nav 1 = none → env.gsReady 1 0 = true →
        (filterDedup [] (env.primary 1)).fst ≠ [] →
        search_android_dev env mp
          = (Except.ok ((filterDedup [] (env.primary 1)).fst), [Ev.nav 1, Ev.sleep 300])) := by
  constructor
  · intro env mp hmp hnav hgs hp hf
    have hpoll : ∀ a, pollTicks (env.gsReady a) [Ev.sleep 300] checkIntervalMs numTicks 0
        = (true, 1, [Ev.sleep 300]) :=
      fun a => pollTicks_hitZero _ _ _ numTicks (hgs a) (by decide)
    have hpages := pagesFor_eq_nil mp hmp
    simp [search_android_dev, searchGo, attemptBody, attemptCore, attemptRest,
      hnav, hpoll, hp, hf, hpages, pagLoop, filterDedup, jsFallback, jsFallbackReduce]
  · intro env mp hmp hnav hgs hne
    have hpoll := pollTicks_hitZero (env.gsReady 1) [Ev.sleep 300] checkIntervalMs numTicks hgs (by decide)
    have hpages := pagesFor_eq_nil mp hmp
    have hemp : (filterDedup [] (env.primary 1)).fst.isEmpty = false := by
      cases hf : (filterDedup [] (env.primary 1)).fst with
      | nil => exact absurd hf hne
      | cons x xs => rfl
    simp [search_android_dev, searchGo, attemptBody, attemptCore, attemptRest,
      hnav, hpoll, hpages, pagLoop, hemp]

/-- C9, witness: the three-failed-attempts schedule on the ready-but-empty
environment and the first-attempt success on the ready environment with
links. -/
theorem C9_witness :
    search_android_dev envReadyEmpty 1
        = (Except.error "No links extracted after 3 attempts",
           [Ev.nav 1, Ev.sleep 300, Ev.sleep 1000,
            Ev.nav 2, Ev.sleep 300, Ev.sleep 2000,
            Ev.nav 3, Ev.sleep 300])
      ∧ search_android_dev envReadyLinks 1
          = (Except.ok ((filterDedup [] (envReadyLinks.primary 1)).fst),
             [Ev.nav 1, Ev.sleep 300]) :=
  ⟨C9_theorem.1 envReadyEmpty 1 (by decide) (fun _ => rfl) (fun _ => rfl)
     (fun _ => rfl) (fun _ => rfl),
   C9_theorem.2 envReadyLinks 1 (by decide) rfl rfl (by decide)⟩

/-- C10, confirmed: search with max_page 0 is identical (result and trace)
to search with max_page 1; the server default (absent max_page) equals
max_page 1; and with max_page 1 no pagination click event ever occurs. -/
theorem C10_theorem :
    (∀ env : SearchEnv, search_android_dev env 0 = search_android_dev env 1)
      ∧ (∀ env : SearchEnv, search_android env none = search_android env (some 1))
      ∧ (∀ env : SearchEnv, ((search_android_dev env 1).snd).all evNotClick = true) := by
  refine ⟨?_, ?_, ?_⟩
  · intro env
    exact searchGo_congr_mp env 0 1 rfl [1, 2, 3]
  · intro env
    rfl
  · intro env
    exact searchGo_noClick env [1, 2, 3]

end Docser
